import Mathlib

/-!
Verification model of the ppb power-button proxy (github.com/libops/ppb).

The Go sources are embedded shallowly:
* `pkg/machine/gce.go` — the power controller (`PowerOn`, `setIp`,
  `waitForInstanceRunning`, `PowerOnWithCooldown`).  Remote control-plane
  interactions are parameterised by an oracle (`RemoteEnv`), time is modelled
  as natural-number seconds, and each function additionally records the list
  of remote control-plane calls it makes, so that rate-limiting claims can be
  stated.
* the access filter of `pkg/config` (`IpIsAllowed`, `getClientIP`), together
  with the parts of Go's `net` package it relies on (`ParseIP`,
  `SplitHostPort`, `IPNet.Contains`), modelled byte-for-byte from the Go
  standard library since the filter's behaviour on edge inputs depends on
  them.
-/

namespace PPB

/-! ## Power controller data model (pkg/machine/gce.go) -/

/-- One `compute.AccessConfig` of a network interface; only the NAT IP field
is read by the code. -/
structure AccessConfig where
  natIP : String
deriving Repr, DecidableEq

/-- One `compute.NetworkInterface`: its private address and access configs. -/
structure NetworkInterface where
  networkIP : String
  accessConfigs : List AccessConfig
deriving Repr, DecidableEq

/-- The fields of `compute.Instance` the power controller reads. -/
structure Instance where
  status : String
  networkInterfaces : List NetworkInterface
deriving Repr, DecidableEq

/-- The mutable state of `machine.GoogleComputeEngine` plus the immutable
address-policy flag.  Time is in whole seconds; `lastPowerOnAttempt = 0`
models Go's zero `time.Time` (the process starts at a clock value far past
any cooldown, which theorems state as a hypothesis on `now`). -/
structure GoogleComputeEngine where
  usePrivateIp : Bool
  host : String
  lastPowerOnAttempt : Nat
deriving Repr, DecidableEq

/-- The `Host()` getter (gce.go lines 33-37). -/
def Host (m : GoogleComputeEngine) : String := m.host

/-- The scan in the public-address branch of `setIp` (gce.go lines 158-164):
the first interface whose first access config carries a non-empty NAT IP. -/
def firstNatIP : List NetworkInterface → Option String
  | [] => none
  | nic :: rest =>
    match nic.accessConfigs with
    | [] => firstNatIP rest
    | ac :: _ => if ac.natIP ≠ "" then some ac.natIP else firstNatIP rest

/-- The `setIp` method (gce.go lines 140-167).  Returns the updated machine
and the error (`none` = success).  Go mutates `m.host` only on the success
paths, so every error path returns the machine unchanged.  The error strings
drop the interpolated instance name, which the model does not carry. -/
def setIp (m : GoogleComputeEngine) (vm : Instance) :
    GoogleComputeEngine × Option String :=
  match vm.networkInterfaces with
  | [] => (m, some "no network interfaces found for instance")
  | nic0 :: _ =>
    if m.usePrivateIp && nic0.networkIP == "" then
      (m, some "no private IP found for instance")
    else if m.usePrivateIp then
      ({ m with host := nic0.networkIP }, none)
    else
      match firstNatIP vm.networkInterfaces with
      | some ip => ({ m with host := ip }, none)
      | none => (m, some "no public IP found for instance")

/-- Kinds of remote control-plane calls, recorded for rate-limit claims. -/
inductive RemoteCall where
  | getMetadata
  | start
  | resume
deriving Repr, DecidableEq

/-- What one iteration of the poll loop's `select` observes: external
cancellation (`ctx.Done()`, carrying `ctx.Err()`), a failed metadata fetch
(logged and retried), or fetched instance metadata. -/
inductive PollOutcome where
  | cancelled (e : String)
  | fetchErr (e : String)
  | ok (vm : Instance)

/-- Oracle for the remote control plane during one power-on sequence:
the initial `getInstanceMetadata` result, the outcome of an
`Instances.Start` / `Instances.Resume` call (`none` = success; service
construction failures are folded into these), and the stream of poll-loop
observations, indexed by tick number. -/
structure RemoteEnv where
  metadata : Except String Instance
  startResult : Option String
  resumeResult : Option String
  poll : Nat → PollOutcome

/-- Result of a power-controller entry point: the machine state after the
call, the returned error (`none` = success), and the remote calls made. -/
structure PowerResult where
  machine : GoogleComputeEngine
  err : Option String
  calls : List RemoteCall

/-- The lower-case `powerOn` method (gce.go lines 86-109): dispatch the
transition call on the observed status.  Returns the error and the transition
calls issued.  (Go's SUSPENDED branch also says "failed to start instance";
the model keeps that message.) -/
def powerOn (env : RemoteEnv) (status : String) : Option String × List RemoteCall :=
  if status == "TERMINATED" then
    match env.startResult with
    | some e => (some ("failed to start instance: " ++ e), [.start])
    | none => (none, [.start])
  else if status == "SUSPENDED" then
    match env.resumeResult with
    | some e => (some ("failed to start instance: " ++ e), [.resume])
    | none => (none, [.resume])
  else (some ("unknown status: " ++ status), [])

/-- Poll interval of `waitForInstanceRunning` (gce.go line 113): 2 seconds. -/
def tickIntervalSeconds : Nat := 2

/-- Poll timeout of `waitForInstanceRunning` (gce.go line 116): 5 minutes. -/
def pollTimeoutSeconds : Nat := 300

/-- One `select` iteration of the poll loop per step (gce.go lines 118-137).
`i` is the tick index (tick `i` fires `tickIntervalSeconds * (i+1)` seconds
into the poll) and `fuel` the number of ticks remaining before the 5-minute
`time.After` timeout fires; when it reaches 0 the loop returns the timeout
error.  A fetch error is logged and the loop continues; a RUNNING status
resolves the address via `setIp` and returns its outcome. -/
def waitAux (poll : Nat → PollOutcome) :
    GoogleComputeEngine → Nat → Nat → PowerResult
  | m, _, 0 => ⟨m, some "timeout waiting for instance to start", []⟩
  | m, i, fuel + 1 =>
    match poll i with
    | .cancelled e => ⟨m, some e, []⟩
    | .fetchErr _ =>
      let r := waitAux poll m (i + 1) fuel
      ⟨r.machine, r.err, .getMetadata :: r.calls⟩
    | .ok vm =>
      if vm.status == "RUNNING" then
        let s := setIp m vm
        ⟨s.1, s.2, [.getMetadata]⟩
      else
        let r := waitAux poll m (i + 1) fuel
        ⟨r.machine, r.err, .getMetadata :: r.calls⟩

/-- The `waitForInstanceRunning` method (gce.go lines 112-138): poll every
`tickIntervalSeconds` until RUNNING, cancellation, or the
`pollTimeoutSeconds` timeout. -/
def waitForInstanceRunning (m : GoogleComputeEngine) (poll : Nat → PollOutcome) :
    PowerResult :=
  waitAux poll m 0 (pollTimeoutSeconds / tickIntervalSeconds)

/-- The `PowerOn` method (gce.go lines 46-69): fetch metadata, dispatch on
status (RUNNING resolves the address; TERMINATED/SUSPENDED issue the
transition call and then poll; anything else returns success untouched). -/
def PowerOn (m : GoogleComputeEngine) (env : RemoteEnv) : PowerResult :=
  match env.metadata with
  | .error e => ⟨m, some ("could not fetch instance metadata: " ++ e), [.getMetadata]⟩
  | .ok vm =>
    if vm.status == "RUNNING" then
      let s := setIp m vm
      ⟨s.1, s.2, [.getMetadata]⟩
    else if vm.status != "TERMINATED" && vm.status != "SUSPENDED" then
      ⟨m, none, [.getMetadata]⟩
    else
      match powerOn env vm.status with
      | (some e, cs) => ⟨m, some ("could not power on: " ++ e), .getMetadata :: cs⟩
      | (none, cs) =>
        let r := waitForInstanceRunning m env.poll
        ⟨r.machine, r.err, .getMetadata :: (cs ++ r.calls)⟩

/-- The `PowerOnWithCooldown` method (gce.go lines 170-189).  `now` is the
current clock in seconds; Go's `time.Since(m.LastPowerOnAttempt)` is
`now - m.lastPowerOnAttempt` (the clock is monotone, so `now` is at least
every recorded attempt time in reachable states).  The `powerOnMutex` is
acquired on entry and released by `defer` when the method returns, i.e. it is
held across `PowerOn` including the whole poll loop, which is why the method
is modelled as a single atomic step. -/
def PowerOnWithCooldown (m : GoogleComputeEngine) (env : RemoteEnv)
    (now cooldownSeconds : Nat) : PowerResult :=
  if now - m.lastPowerOnAttempt < cooldownSeconds then
    if m.host == "" then
      ⟨m, some "backend not available and still in cooldown period", []⟩
    else
      ⟨m, none, []⟩
  else
    PowerOn { m with lastPowerOnAttempt := now } env

/-- Lock-serialised execution of a batch of `PowerOnWithCooldown` calls.
Because `powerOnMutex` is held for the entire body, N concurrent callers
execute the body one after another in lock-acquisition order; each list entry
is one caller's lock-acquisition time and remote oracle.  The returned flags
record, per caller, whether it made any remote control-plane call (i.e.
executed the remote status/power-on/poll sequence rather than the cooldown
branch). -/
def runSerial (cd : Nat) :
    GoogleComputeEngine → List (Nat × RemoteEnv) → GoogleComputeEngine × List Bool
  | m, [] => (m, [])
  | m, (t, env) :: rest =>
    let r := PowerOnWithCooldown m env t cd
    let out := runSerial cd r.machine rest
    (out.1, (!r.calls.isEmpty) :: out.2)


/-! ## Character-list string primitives

The filter's behaviour is driven by Go string functions (`strings.Split`,
`strings.TrimSpace`, `strings.Contains`).  They are modelled structurally on
`List Char` (a `String` is its character list) so that every definition
evaluates by kernel reduction. -/

/-- Go's `unicode.IsSpace` restricted to ASCII, which is all `TrimSpace`
meets in address strings. -/
def isSpaceCh (c : Char) : Bool :=
  c == ' ' || c == '\t' || c == '\n' || c == '\x0b' || c == '\x0c' || c == '\r'

/-- Go's `strings.TrimSpace` on a character list. -/
def trimChars (cs : List Char) : List Char :=
  ((cs.dropWhile isSpaceCh).reverse.dropWhile isSpaceCh).reverse

/-- Go's `strings.Split` with a single-character separator: splitting the
empty string yields one empty component, exactly as in Go. -/
def splitOnChar (sep : Char) : List Char → List (List Char)
  | [] => [[]]
  | c :: rest =>
    match splitOnChar sep rest with
    | [] => [[]]
    | g :: gs => if c == sep then [] :: g :: gs else (c :: g) :: gs

/-! ## Go net-package model (ParseIP, SplitHostPort, IPNet.Contains)

The access filter's behaviour on edge inputs (unparsable addresses, bare
IPv6, nil IPs) is determined by Go's `net` package, so the relevant functions
are modelled from the Go standard library (net/ip.go, net/ipsock.go).  IP
addresses are lists of byte values; a parse failure (Go's `nil` IP) is
`none`. -/

/-- The 12-byte v4-in-v6 marker: Go represents the IPv4 address a.b.c.d as
the 16 bytes `v4InV6 ++ [a, b, c, d]` (net.IPv4). -/
def v4InV6 : List Nat := [0, 0, 0, 0, 0, 0, 0, 0, 0, 0, 0xff, 0xff]

/-- Numeric value of a list of decimal digits. -/
def decimalValue (cs : List Char) : Nat :=
  cs.foldl (fun a c => a * 10 + (c.toNat - 48)) 0

/-- One dotted-decimal field of Go's IPv4 parser: non-empty, digits only, no
leading zero (rejected since Go 1.17), value at most 255. -/
def parseV4Field (cs : List Char) : Option Nat :=
  if cs.isEmpty then none
  else if !(cs.all fun c => c.isDigit) then none
  else if cs.length > 1 && cs.head? == some '0' then none
  else if decimalValue cs > 255 then none
  else some (decimalValue cs)

/-- Go's `parseIPv4` (net/ip.go): exactly four dotted-decimal fields.
Returns the four byte values; Go's `ParseIP` then wraps them in the 16-byte
v4-in-v6 form. -/
def parseIPv4 (cs : List Char) : Option (List Nat) :=
  match (splitOnChar '.' cs).mapM parseV4Field with
  | some [a, b, c, d] => some [a, b, c, d]
  | _ => none

/-- Hexadecimal digit test (Go's xtoi accepts 0-9, a-f, A-F). -/
def isHexDigitCh (c : Char) : Bool :=
  c.isDigit || ('a' ≤ c && c ≤ 'f') || ('A' ≤ c && c ≤ 'F')

/-- Value of a hexadecimal digit. -/
def hexVal (c : Char) : Nat :=
  if c.isDigit then c.toNat - 48
  else if 'a' ≤ c && c ≤ 'f' then c.toNat - 87
  else c.toNat - 55

/-- Numeric value of a list of hexadecimal digits. -/
def hexValue (cs : List Char) : Nat :=
  cs.foldl (fun a c => a * 16 + hexVal c) 0

/-- The group-reading loop of Go's `parseIPv6` (net/ip.go).  `acc` holds the
bytes emitted so far, `ell` the byte position of the `::` ellipsis if one was
seen.  Each iteration reads one hex group (or the trailing embedded IPv4) and
its separator, exactly as the Go loop does; `fuel` bounds the at most eight
group iterations.  Returns the bytes and ellipsis position after the whole
input is consumed, or `none` for every Go `return nil` path. -/
def parseIPv6Loop : Nat → List Char → List Nat → Option Nat →
    Option (List Nat × Option Nat)
  | 0, _, _, _ => none
  | fuel + 1, cs, acc, ell =>
    if acc.length ≥ 16 then none
    else
      let digits := cs.takeWhile isHexDigitCh
      let rest := cs.dropWhile isHexDigitCh
      if digits.isEmpty then none
      else if hexValue digits > 0xFFFF then none
      else if rest.head? == some '.' then
        if ell.isNone && acc.length ≠ 12 then none
        else if acc.length + 4 > 16 then none
        else
          match parseIPv4 cs with
          | none => none
          | some ip4 => some (acc ++ ip4, ell)
      else
        let acc' := acc ++ [hexValue digits / 256, hexValue digits % 256]
        match rest with
        | [] => some (acc', ell)
        | r0 :: rtail =>
          if r0 ≠ ':' || rtail.isEmpty then none
          else
            match rtail with
            | ':' :: rtail2 =>
              if ell.isSome then none
              else if rtail2.isEmpty then some (acc', some acc'.length)
              else parseIPv6Loop fuel rtail2 acc' (some acc'.length)
            | _ => parseIPv6Loop fuel rtail acc' ell

/-- The tail of Go's `parseIPv6`: a full 16 bytes must not also have an
ellipsis, while a short result requires one and is expanded with zero bytes
at the ellipsis position. -/
def parseIPv6End : Option (List Nat × Option Nat) → Option (List Nat)
  | none => none
  | some (acc, ell) =>
    if acc.length = 16 then
      if ell.isSome then none else some acc
    else
      match ell with
      | none => none
      | some k => some (acc.take k ++ List.replicate (16 - acc.length) 0 ++ acc.drop k)

/-- Go's `parseIPv6` (net/ip.go): leading `::` handling, the group loop, and
the final ellipsis expansion to 16 bytes. -/
def parseIPv6 (cs : List Char) : Option (List Nat) :=
  match cs with
  | ':' :: ':' :: rest =>
    if rest.isEmpty then some (List.replicate 16 0)
    else parseIPv6End (parseIPv6Loop 9 rest [] (some 0))
  | _ => parseIPv6End (parseIPv6Loop 9 cs [] none)

/-- Go's `net.ParseIP`: scan for the first `.` or `:` and dispatch to the v4
or v6 parser (an IPv4 literal yields the 16-byte v4-in-v6 form, as Go's
`IPv4()` constructor does).  Zone suffixes are not modelled: the filter never
feeds zoned addresses. -/
def parseIP (s : String) : Option (List Nat) :=
  match s.data.find? (fun c => c == '.' || c == ':') with
  | some '.' => (parseIPv4 s.data).map (fun bs => v4InV6 ++ bs)
  | some ':' => parseIPv6 s.data
  | _ => none

/-- Go's `net.IPNet`: network number and mask, as byte lists (4 bytes each
for a parsed IPv4 CIDR, 16 each for IPv6, which is what `ParseCIDR`
produces). -/
structure IPNet where
  ip : List Nat
  mask : List Nat
deriving Repr, DecidableEq

/-- Go's `IP.To4`: a 4-byte address is itself; a 16-byte v4-in-v6 address is
its last 4 bytes; anything else (including nil) has no 4-byte form. -/
def to4 (bs : List Nat) : Option (List Nat) :=
  if bs.length = 4 then some bs
  else if bs.length = 16 && bs.take 12 == v4InV6 then some (bs.drop 12)
  else none

/-- Go's `networkNumberAndMask` (net/ip.go): normalise the network number to
4 bytes when it is IPv4, and align the mask; `none` models the `nil, nil`
return for malformed nets. -/
def networkNumberAndMask (n : IPNet) : Option (List Nat × List Nat) :=
  let nn : Option (List Nat) :=
    match to4 n.ip with
    | some ip4 => some ip4
    | none => if n.ip.length = 16 then some n.ip else none
  match nn with
  | none => none
  | some nnum =>
    if n.mask.length = 4 then
      if nnum.length ≠ 4 then none else some (nnum, n.mask)
    else if n.mask.length = 16 then
      some (nnum, if nnum.length = 4 then n.mask.drop 12 else n.mask)
    else none

/-- The byte-comparison loop of Go's `IPNet.Contains`: equal under the mask,
byte by byte (all three lists have equal length at every call site). -/
def maskedEq : List Nat → List Nat → List Nat → Bool
  | [], [], [] => true
  | nb :: nn, mb :: mm, ib :: ii => (nb &&& mb == ib &&& mb) && maskedEq nn mm ii
  | _, _, _ => false

/-- Go's `IPNet.Contains`.  The candidate is normalised with `To4`; a length
mismatch with the network number yields false — in particular a nil IP
(`none`, length 0) is never contained in a well-formed net. -/
def IPNet.contains (n : IPNet) (ip : Option (List Nat)) : Bool :=
  match networkNumberAndMask n with
  | none =>
    match ip with
    | none => true
    | some bs => ((to4 bs).getD bs).isEmpty
  | some (nnum, msk) =>
    match ip with
    | none => false
    | some bs =>
      let b := (to4 bs).getD bs
      nnum.length == b.length && maskedEq nnum msk b

/-- Well-formedness of an allow-list entry: exactly what `net.ParseCIDR`
produces (4-byte network and mask for IPv4, 16-byte for IPv6), which the
config loader guarantees for every configured block. -/
def wfIPNet (n : IPNet) : Prop :=
  (n.ip.length = 4 ∧ n.mask.length = 4) ∨ (n.ip.length = 16 ∧ n.mask.length = 16)

/-! ## Access filter (pkg/config) -/

/-- The filter-relevant configuration fields.  `ipDepth` is non-negative in
every real configuration (the YAML default is 0). -/
structure Config where
  allowedIps : List IPNet
  ipForwardedHeader : String
  ipDepth : Nat

/-- An inbound request as the filter sees it: the direct peer address and the
header map.  Header names are compared verbatim; Go canonicalises them, which
is observationally the same for consistently-cased names. -/
structure Request where
  remoteAddr : String
  headers : List (String × String)

/-- Go's `r.Header.Get(key)`: the stored value, or "" when absent. -/
def headerGet (r : Request) (key : String) : String :=
  (r.headers.lookup key).getD ""

/-- The component-selection loop of `getClientIP`: walk the components from
the right, decrementing the depth; the element reached at depth 0 is trimmed
and selected, and the empty string results when the depth is at least the
component count (the loop runs out without breaking).  Applied to the
reversed component list. -/
def pickFromRight : List (List Char) → Nat → List Char
  | [], _ => []
  | x :: _, 0 => trimChars x
  | _ :: rest, d + 1 => pickFromRight rest d

/-- The candidate client address computed by the first half of `getClientIP`:
the depth-selected forwarded-header component when the header is configured,
falling back to `r.RemoteAddr` when the result is empty. -/
def candidateClientIP (c : Config) (r : Request) : List Char :=
  let ip0 := (headerGet r c.ipForwardedHeader).data
  let ip1 :=
    if c.ipForwardedHeader ≠ "" then
      pickFromRight (splitOnChar ',' ip0).reverse c.ipDepth
    else ip0
  if ip1.isEmpty then r.remoteAddr.data else ip1

/-- Index of the last occurrence of a character. -/
def lastIdxOf (cs : List Char) (c : Char) : Option Nat :=
  match cs.reverse.findIdx? (fun x => x == c) with
  | some j => some (cs.length - 1 - j)
  | none => none

/-- The host component of Go's `net.SplitHostPort` (net/ipsock.go); `none`
models every error return, in which case the returned host is "".  The
bracketed form `[host]:port` requires the last colon right after the `]`;
an unbracketed host containing a colon is "too many colons". -/
def splitHostPortHost (cs : List Char) : Option (List Char) :=
  match lastIdxOf cs ':' with
  | none => none
  | some i =>
    if cs.head? == some '[' then
      match cs.findIdx? (fun x => x == ']') with
      | none => none
      | some e =>
        if e + 1 = cs.length then none
        else if e + 1 = i then
          if (cs.drop 1).contains '[' then none
          else if (cs.drop (e + 1)).contains ']' then none
          else some ((cs.drop 1).take (e - 1))
        else none
    else
      let host := cs.take i
      if host.contains ':' then none
      else if cs.contains '[' then none
      else if cs.contains ']' then none
      else some host

/-- The port-stripping tail of `getClientIP`: when the candidate contains a
colon, `net.SplitHostPort` is applied and its host is taken even on failure,
in which case the host is empty (the code logs the error and carries on). -/
def stripPort (cs : List Char) : List Char :=
  if cs.contains ':' then (splitHostPortHost cs).getD [] else cs

/-- The string `getClientIP` finally hands to `net.ParseIP`. -/
def getClientIPString (c : Config) (r : Request) : String :=
  ⟨stripPort (candidateClientIP c r)⟩

/-- The `getClientIP` method (config, lines 423-457): depth-selected
candidate, port stripping, then `net.ParseIP` (`none` = Go's nil IP). -/
def getClientIP (c : Config) (r : Request) : Option (List Nat) :=
  parseIP (getClientIPString c r)

/-- The `IpIsAllowed` method (config, lines 412-421): the resolved client IP
is checked against each configured block, returning on the first match. -/
def IpIsAllowed (c : Config) (r : Request) : Bool :=
  c.allowedIps.any fun block => IPNet.contains block (getClientIP c r)

/-! ## Helper lemmas about the power controller -/

theorem firstNatIP_some_ne (l : List NetworkInterface) (ip : String)
    (h : firstNatIP l = some ip) : ip ≠ "" := by
  induction l with
  | nil => simp [firstNatIP] at h
  | cons nic rest ih =>
    rw [firstNatIP] at h
    rcases hac : nic.accessConfigs with _ | ⟨ac, acs⟩
    · rw [hac] at h; exact ih h
    · rw [hac] at h
      by_cases hne : ac.natIP = ""
      · simp [hne] at h; exact ih h
      · simp [hne] at h; subst h; exact hne

/-- Every `setIp` call either fails leaving the machine untouched, or
succeeds having written a non-empty host and nothing else. -/
theorem setIp_cases (m : GoogleComputeEngine) (vm : Instance) :
    (∃ e, setIp m vm = (m, some e)) ∨
    (∃ h, h ≠ "" ∧ setIp m vm = ({ m with host := h }, none)) := by
  rw [setIp]
  rcases hn : vm.networkInterfaces with _ | ⟨nic0, rest⟩
  · exact Or.inl ⟨_, rfl⟩
  · dsimp only
    by_cases hguard : (m.usePrivateIp && nic0.networkIP == "") = true
    · rw [if_pos hguard]
      exact Or.inl ⟨_, rfl⟩
    · rw [if_neg hguard]
      by_cases hpriv : m.usePrivateIp = true
      · rw [if_pos hpriv]
        refine Or.inr ⟨nic0.networkIP, ?_, rfl⟩
        intro hip
        exact hguard (by rw [hpriv, hip]; rfl)
      · rw [if_neg hpriv]
        rcases hf : firstNatIP (nic0 :: rest) with _ | ip
        · exact Or.inl ⟨_, rfl⟩
        · exact Or.inr ⟨ip, firstNatIP_some_ne _ _ hf, rfl⟩

theorem setIp_lastPowerOnAttempt (m : GoogleComputeEngine) (vm : Instance) :
    (setIp m vm).1.lastPowerOnAttempt = m.lastPowerOnAttempt := by
  rcases setIp_cases m vm with ⟨e, h⟩ | ⟨hh, _, h⟩ <;> rw [h]

theorem setIp_none_host_ne (m : GoogleComputeEngine) (vm : Instance)
    (h : (setIp m vm).2 = none) : (setIp m vm).1.host ≠ "" := by
  rcases setIp_cases m vm with ⟨e, he⟩ | ⟨hh, hne, he⟩
  · rw [he] at h; cases h
  · rw [he]; exact hne

theorem setIp_some_unchanged (m : GoogleComputeEngine) (vm : Instance) (e : String)
    (h : (setIp m vm).2 = some e) : (setIp m vm).1 = m := by
  rcases setIp_cases m vm with ⟨f, he⟩ | ⟨hh, hne, he⟩
  · rw [he]
  · rw [he] at h; cases h

theorem waitAux_lastPowerOnAttempt (poll : Nat → PollOutcome) :
    ∀ (fuel i : Nat) (m : GoogleComputeEngine),
      (waitAux poll m i fuel).machine.lastPowerOnAttempt = m.lastPowerOnAttempt := by
  intro fuel
  induction fuel with
  | zero => intro i m; rfl
  | succ n ih =>
    intro i m
    rw [waitAux]
    rcases poll i with e | e | vm
    · rfl
    · exact ih (i + 1) m
    · dsimp only
      split
      · exact setIp_lastPowerOnAttempt m vm
      · exact ih (i + 1) m

/-- Classification of the poll-loop outcome: either some tick returned a
RUNNING instance and the result is `setIp`'s outcome on it, or the machine is
untouched and the loop ended with the timeout error or a cancellation
delivered by the poll stream. -/
theorem waitAux_classify (poll : Nat → PollOutcome) :
    ∀ (fuel i : Nat) (m : GoogleComputeEngine),
      (∃ j vm, poll j = .ok vm ∧ vm.status = "RUNNING" ∧
        ((waitAux poll m i fuel).machine, (waitAux poll m i fuel).err) = setIp m vm) ∨
      ((waitAux poll m i fuel).machine = m ∧
        ((waitAux poll m i fuel).err = some "timeout waiting for instance to start" ∨
         ∃ j e, poll j = .cancelled e ∧ (waitAux poll m i fuel).err = some e)) := by
  intro fuel
  induction fuel with
  | zero => intro i m; right; exact ⟨rfl, Or.inl rfl⟩
  | succ n ih =>
    intro i m
    rw [waitAux]
    rcases hp : poll i with e | e | vm
    · right; exact ⟨rfl, Or.inr ⟨i, e, hp, rfl⟩⟩
    · exact ih (i + 1) m
    · dsimp only
      split
      · next hrun =>
        left
        exact ⟨i, vm, hp, by simpa using hrun, rfl⟩
      · exact ih (i + 1) m

theorem waitAux_calls_le (poll : Nat → PollOutcome) :
    ∀ (fuel i : Nat) (m : GoogleComputeEngine),
      (waitAux poll m i fuel).calls.length ≤ fuel := by
  intro fuel
  induction fuel with
  | zero => intro i m; simp [waitAux]
  | succ n ih =>
    intro i m
    rw [waitAux]
    rcases poll i with e | e | vm
    · simp
    · simpa using Nat.succ_le_succ (ih (i + 1) m)
    · dsimp only
      split
      · simp
      · simpa using Nat.succ_le_succ (ih (i + 1) m)

theorem PowerOn_lastPowerOnAttempt (m : GoogleComputeEngine) (env : RemoteEnv) :
    (PowerOn m env).machine.lastPowerOnAttempt = m.lastPowerOnAttempt := by
  rw [PowerOn]
  rcases env.metadata with e | vm
  · rfl
  · dsimp only
    split
    · exact setIp_lastPowerOnAttempt m vm
    · split
      · rfl
      · rcases powerOn env vm.status with ⟨_ | e, cs⟩
        · exact waitAux_lastPowerOnAttempt env.poll _ 0 m
        · rfl

theorem PowerOn_calls_ne_nil (m : GoogleComputeEngine) (env : RemoteEnv) :
    (PowerOn m env).calls ≠ [] := by
  rw [PowerOn]
  rcases env.metadata with e | vm
  · simp
  · dsimp only
    split
    · simp
    · split
      · simp
      · rcases powerOn env vm.status with ⟨_ | e, cs⟩ <;> simp

/-- Inside the cooldown window the call is the pure cooldown branch. -/
theorem powerOnWithCooldown_of_lt (m : GoogleComputeEngine) (env : RemoteEnv)
    (now cd : Nat) (h : now - m.lastPowerOnAttempt < cd) :
    PowerOnWithCooldown m env now cd =
      ⟨m, if m.host == "" then some "backend not available and still in cooldown period"
          else none, []⟩ := by
  rw [PowerOnWithCooldown, if_pos h]
  split <;> rfl

/-- Outside the cooldown window the attempt time is recorded first and the
remote sequence runs on the updated machine. -/
theorem powerOnWithCooldown_of_ge (m : GoogleComputeEngine) (env : RemoteEnv)
    (now cd : Nat) (h : cd ≤ now - m.lastPowerOnAttempt) :
    PowerOnWithCooldown m env now cd =
      PowerOn { m with lastPowerOnAttempt := now } env := by
  rw [PowerOnWithCooldown, if_neg (Nat.not_lt.mpr h)]

/-- A serialised batch of calls that all fall inside the cooldown window of
the machine's recorded attempt makes no remote call at all. -/
theorem runSerial_within_window (cd : Nat) :
    ∀ (calls : List (Nat × RemoteEnv)) (m : GoogleComputeEngine),
      (∀ p ∈ calls, p.1 - m.lastPowerOnAttempt < cd) →
      (runSerial cd m calls).2 = calls.map (fun _ => false) := by
  intro calls
  induction calls with
  | nil => intro m _; rfl
  | cons p rest ih =>
    intro m hwin
    obtain ⟨t, env⟩ := p
    have hlt : t - m.lastPowerOnAttempt < cd := hwin (t, env) (by simp)
    rw [runSerial, powerOnWithCooldown_of_lt m env t cd hlt]
    simp only [List.map_cons, List.isEmpty_nil, Bool.not_true]
    exact congrArg (List.cons false) (ih m (fun q hq => hwin q (by simp [hq])))

/-! ## Claim theorems -/

/-- A concrete remote environment for witnesses: the control plane is
unreachable throughout. -/
def envUnavailable : RemoteEnv :=
  ⟨.error "unavailable", none, none, fun _ => .fetchErr "unavailable"⟩

/-- C1: with the powerOnMutex held across the whole body (so concurrent
callers run serially), a batch of N calls with no prior attempt in which the
first caller is past the (huge) cooldown-since-zero-time and the rest acquire
the lock inside the window opened by the first produces exactly one execution
of the remote status/power-on/poll sequence; every other call takes the
cooldown branch and makes no remote call. -/
theorem ensureRunning_single_remote_sequence
    (m : GoogleComputeEngine) (cd t : Nat) (env : RemoteEnv)
    (rest : List (Nat × RemoteEnv))
    (hfresh : m.lastPowerOnAttempt = 0) (hcd : 0 < cd) (ht : cd ≤ t)
    (hwin : ∀ p ∈ rest, p.1 < t + cd) :
    (runSerial cd m ((t, env) :: rest)).2 = true :: rest.map (fun _ => false) := by
  rw [runSerial, powerOnWithCooldown_of_ge m env t cd (by omega)]
  have h1 : (PowerOn { m with lastPowerOnAttempt := t } env).calls.isEmpty = false := by
    rcases hc : (PowerOn { m with lastPowerOnAttempt := t } env).calls with _ | ⟨c, cs⟩
    · exact absurd hc (PowerOn_calls_ne_nil _ _)
    · rfl
  have hlast : (PowerOn { m with lastPowerOnAttempt := t } env).machine.lastPowerOnAttempt
      = t := PowerOn_lastPowerOnAttempt _ _
  have hrest : (runSerial cd (PowerOn { m with lastPowerOnAttempt := t } env).machine
      rest).2 = rest.map (fun _ => false) := by
    refine runSerial_within_window cd rest _ (fun p hp => ?_)
    have := hwin p hp
    rw [hlast]
    omega
  simp only [h1, Bool.not_false, hrest]

/-- C1 witness: three callers at times 30, 40, 50 with a 30-second cooldown
and no prior attempt; only the first makes remote calls. -/
theorem ensureRunning_single_remote_sequence_witness :
    (runSerial 30 ⟨false, "", 0⟩
        [(30, envUnavailable), (40, envUnavailable), (50, envUnavailable)]).2 =
      [true, false, false] :=
  ensureRunning_single_remote_sequence ⟨false, "", 0⟩ 30 30 envUnavailable
    [(40, envUnavailable), (50, envUnavailable)] rfl (by decide) (by decide) (by decide)

/-- C2: inside the cooldown window no remote call is made, the machine (in
particular `LastPowerOnAttempt`) is unchanged, and the call succeeds exactly
when the runtime address is already known, failing with the distinct
cooling-down error otherwise; outside the window `LastPowerOnAttempt` is set
to the current time before the remote sequence (which cannot change it back)
runs. -/
theorem ensureRunning_cooldown_gate (m : GoogleComputeEngine) (env : RemoteEnv)
    (now cd : Nat) :
    (now - m.lastPowerOnAttempt < cd →
      (PowerOnWithCooldown m env now cd).calls = [] ∧
      (PowerOnWithCooldown m env now cd).machine = m ∧
      (m.host = "" →
        (PowerOnWithCooldown m env now cd).err =
          some "backend not available and still in cooldown period") ∧
      (m.host ≠ "" → (PowerOnWithCooldown m env now cd).err = none)) ∧
    (cd ≤ now - m.lastPowerOnAttempt →
      PowerOnWithCooldown m env now cd = PowerOn { m with lastPowerOnAttempt := now } env ∧
      (PowerOnWithCooldown m env now cd).machine.lastPowerOnAttempt = now) := by
  constructor
  · intro h
    rw [powerOnWithCooldown_of_lt m env now cd h]
    refine ⟨rfl, rfl, fun hh => ?_, fun hh => ?_⟩
    · simp [hh]
    · simp [hh]
  · intro h
    rw [powerOnWithCooldown_of_ge m env now cd h]
    exact ⟨rfl, PowerOn_lastPowerOnAttempt _ _⟩

/-- C2 witness: a call at time 10 with a recorded attempt at time 5 and a
known address takes the cooldown branch untouched; a call at time 30 with no
prior attempt records time 30 and runs the remote sequence. -/
theorem ensureRunning_cooldown_gate_witness :
    ((PowerOnWithCooldown ⟨false, "10.0.0.1", 5⟩ envUnavailable 10 30).calls = [] ∧
      (PowerOnWithCooldown ⟨false, "10.0.0.1", 5⟩ envUnavailable 10 30).machine =
        ⟨false, "10.0.0.1", 5⟩) ∧
    (PowerOnWithCooldown ⟨false, "", 0⟩ envUnavailable 30 30).machine.lastPowerOnAttempt
      = 30 := by
  refine ⟨⟨?_, ?_⟩, ?_⟩
  · exact ((ensureRunning_cooldown_gate ⟨false, "10.0.0.1", 5⟩ envUnavailable 10 30).1
      (by decide)).1
  · exact ((ensureRunning_cooldown_gate ⟨false, "10.0.0.1", 5⟩ envUnavailable 10 30).1
      (by decide)).2.1
  · exact ((ensureRunning_cooldown_gate ⟨false, "", 0⟩ envUnavailable 30 30).2
      (by decide)).2

theorem PowerOn_running (m : GoogleComputeEngine) (env : RemoteEnv) (vm : Instance)
    (hmd : env.metadata = .ok vm) (hs : vm.status = "RUNNING") :
    PowerOn m env = ⟨(setIp m vm).1, (setIp m vm).2, [.getMetadata]⟩ := by
  rw [PowerOn, hmd]
  dsimp only
  rw [if_pos (by rw [hs]; rfl)]

theorem PowerOn_not_actionable (m : GoogleComputeEngine) (env : RemoteEnv) (vm : Instance)
    (hmd : env.metadata = .ok vm) (h1 : vm.status ≠ "RUNNING")
    (h2 : vm.status ≠ "TERMINATED") (h3 : vm.status ≠ "SUSPENDED") :
    PowerOn m env = ⟨m, none, [.getMetadata]⟩ := by
  rw [PowerOn, hmd]
  dsimp only
  rw [if_neg (by simpa using h1), if_pos (by simp [h2, h3])]

theorem PowerOn_transition (m : GoogleComputeEngine) (env : RemoteEnv) (vm : Instance)
    (hmd : env.metadata = .ok vm) (h1 : vm.status ≠ "RUNNING")
    (h2 : vm.status = "TERMINATED" ∨ vm.status = "SUSPENDED") :
    PowerOn m env =
      (match powerOn env vm.status with
       | (some e, cs) => ⟨m, some ("could not power on: " ++ e), .getMetadata :: cs⟩
       | (none, cs) =>
         ⟨(waitForInstanceRunning m env.poll).machine,
          (waitForInstanceRunning m env.poll).err,
          .getMetadata :: (cs ++ (waitForInstanceRunning m env.poll).calls)⟩) := by
  rw [PowerOn, hmd]
  dsimp only
  rw [if_neg (by simpa using h1), if_neg (by rcases h2 with h | h <;> simp [h])]

theorem powerOn_terminated (env : RemoteEnv) :
    powerOn env "TERMINATED" =
      (match env.startResult with
       | some e => (some ("failed to start instance: " ++ e), [.start])
       | none => (none, [.start])) := by
  rw [powerOn]
  rfl

theorem powerOn_suspended (env : RemoteEnv) :
    powerOn env "SUSPENDED" =
      (match env.resumeResult with
       | some e => (some ("failed to start instance: " ++ e), [.resume])
       | none => (none, [.resume])) := by
  rw [powerOn]
  rfl

theorem PowerOn_transition_fail (m : GoogleComputeEngine) (env : RemoteEnv)
    (vm : Instance) (e : String) (cs : List RemoteCall)
    (hmd : env.metadata = .ok vm) (h1 : vm.status ≠ "RUNNING")
    (h2 : vm.status = "TERMINATED" ∨ vm.status = "SUSPENDED")
    (hpo : powerOn env vm.status = (some e, cs)) :
    PowerOn m env = ⟨m, some ("could not power on: " ++ e), .getMetadata :: cs⟩ := by
  rw [PowerOn_transition m env vm hmd h1 h2, hpo]

theorem PowerOn_transition_ok (m : GoogleComputeEngine) (env : RemoteEnv)
    (vm : Instance) (cs : List RemoteCall)
    (hmd : env.metadata = .ok vm) (h1 : vm.status ≠ "RUNNING")
    (h2 : vm.status = "TERMINATED" ∨ vm.status = "SUSPENDED")
    (hpo : powerOn env vm.status = (none, cs)) :
    PowerOn m env =
      ⟨(waitForInstanceRunning m env.poll).machine,
       (waitForInstanceRunning m env.poll).err,
       .getMetadata :: (cs ++ (waitForInstanceRunning m env.poll).calls)⟩ := by
  rw [PowerOn_transition m env vm hmd h1 h2, hpo]

/-- Success of a `PowerOn` call implies the host is non-empty, except on the
not-actionable status branch, which leaves the machine untouched. -/
theorem PowerOn_err_none_cases (m : GoogleComputeEngine) (env : RemoteEnv)
    (h : (PowerOn m env).err = none) :
    (PowerOn m env).machine.host ≠ "" ∨
    (∃ vm, env.metadata = .ok vm ∧ vm.status ≠ "RUNNING" ∧ vm.status ≠ "TERMINATED" ∧
      vm.status ≠ "SUSPENDED" ∧ (PowerOn m env).machine = m) := by
  rcases hmd : env.metadata with e | vm
  · rw [PowerOn, hmd] at h
    cases h
  · by_cases hrun : vm.status = "RUNNING"
    · rw [PowerOn_running m env vm hmd hrun] at h ⊢
      exact Or.inl (setIp_none_host_ne m vm h)
    · by_cases hterm : vm.status = "TERMINATED" ∨ vm.status = "SUSPENDED"
      · rcases hpo : powerOn env vm.status with ⟨oe, cs⟩
        rcases oe with _ | e
        · rw [PowerOn_transition_ok m env vm cs hmd hrun hterm hpo] at h ⊢
          rw [waitForInstanceRunning] at h ⊢
          dsimp only at h ⊢
          rcases waitAux_classify env.poll (pollTimeoutSeconds / tickIntervalSeconds) 0 m
            with ⟨j, vm', hpj, hst, hw⟩ | ⟨hm, hrest⟩
          · have hw1 : (waitAux env.poll m 0 (pollTimeoutSeconds / tickIntervalSeconds)).machine
                = (setIp m vm').1 := congrArg Prod.fst hw
            have hw2 : (waitAux env.poll m 0 (pollTimeoutSeconds / tickIntervalSeconds)).err
                = (setIp m vm').2 := congrArg Prod.snd hw
            rw [hw2] at h
            left
            rw [hw1]
            exact setIp_none_host_ne m vm' h
          · rcases hrest with ho | ⟨j, e2, hpj, ho⟩ <;> rw [ho] at h <;> cases h
        · rw [PowerOn_transition_fail m env vm e cs hmd hrun hterm hpo] at h
          cases h
      · push_neg at hterm
        rw [PowerOn_not_actionable m env vm hmd hrun hterm.1 hterm.2]
        exact Or.inr ⟨vm, rfl, hrun, hterm.1, hterm.2, rfl⟩

/-- Machine and environment on which the power-on check succeeds while the
host stays empty: the instance is observed mid-transition (STOPPING). -/
def envStopping : RemoteEnv :=
  ⟨.ok ⟨"STOPPING", []⟩, none, none, fun _ => .fetchErr "unused"⟩

/-- C3 counterexample: with no prior attempt and an empty host,
`PowerOnWithCooldown` on a STOPPING instance returns success while `Host()`
is still the empty string, so success does not imply a non-empty published
address. -/
theorem ensureRunning_success_empty_host_cex :
    (PowerOnWithCooldown ⟨false, "", 0⟩ envStopping 30 30).err = none ∧
    Host (PowerOnWithCooldown ⟨false, "", 0⟩ envStopping 30 30).machine = "" := by
  constructor <;> rfl

/-- C3 (amended): when `PowerOnWithCooldown` returns success the published
address (`Host()`) is non-empty, unless the remote status dispatch observed a
not-actionable status (neither RUNNING nor TERMINATED nor SUSPENDED), in
which case the host — possibly empty — is left exactly as it was. -/
theorem ensureRunning_success_host (m : GoogleComputeEngine) (env : RemoteEnv)
    (now cd : Nat) (h : (PowerOnWithCooldown m env now cd).err = none) :
    Host (PowerOnWithCooldown m env now cd).machine ≠ "" ∨
    (∃ vm, env.metadata = .ok vm ∧ vm.status ≠ "RUNNING" ∧ vm.status ≠ "TERMINATED" ∧
      vm.status ≠ "SUSPENDED" ∧
      Host (PowerOnWithCooldown m env now cd).machine = Host m) := by
  by_cases hcool : now - m.lastPowerOnAttempt < cd
  · rw [powerOnWithCooldown_of_lt m env now cd hcool] at h ⊢
    left
    dsimp only at h ⊢
    intro hh
    rw [Host] at hh
    simp [hh] at h
  · rw [powerOnWithCooldown_of_ge m env now cd (Nat.le_of_not_lt hcool)] at h ⊢
    rcases PowerOn_err_none_cases _ env h with hne | ⟨vm, hmd, h1, h2, h3, hm⟩
    · exact Or.inl hne
    · right
      refine ⟨vm, hmd, h1, h2, h3, ?_⟩
      rw [hm]
      rfl

/-- C3 amended-claim witness: a successful call in the cooldown window with a
known address has a non-empty host. -/
theorem ensureRunning_success_host_witness :
    Host (PowerOnWithCooldown ⟨false, "10.0.0.1", 5⟩ envUnavailable 10 30).machine ≠ "" ∨
    (∃ vm, envUnavailable.metadata = .ok vm ∧ vm.status ≠ "RUNNING" ∧
      vm.status ≠ "TERMINATED" ∧ vm.status ≠ "SUSPENDED" ∧
      Host (PowerOnWithCooldown ⟨false, "10.0.0.1", 5⟩ envUnavailable 10 30).machine =
        Host ⟨false, "10.0.0.1", 5⟩) :=
  ensureRunning_success_host ⟨false, "10.0.0.1", 5⟩ envUnavailable 10 30 (by decide)

/-- C4: the status dispatch of `PowerOn`.  RUNNING hands the call to the
address resolution (publishing the address and succeeding whenever one is
resolvable); TERMINATED issues the start call and SUSPENDED the resume call;
a failed transition call is returned at once, wrapped, with no poll (the
calls end at the transition call); any other status returns success with no
transition call and the machine untouched. -/
theorem powerOn_status_dispatch (m : GoogleComputeEngine) (env : RemoteEnv)
    (vm : Instance) (hmd : env.metadata = .ok vm) :
    (vm.status = "RUNNING" →
      PowerOn m env = ⟨(setIp m vm).1, (setIp m vm).2, [.getMetadata]⟩) ∧
    (vm.status = "TERMINATED" → ∀ e, env.startResult = some e →
      PowerOn m env = ⟨m, some ("could not power on: " ++ ("failed to start instance: " ++ e)),
        [.getMetadata, .start]⟩) ∧
    (vm.status = "SUSPENDED" → ∀ e, env.resumeResult = some e →
      PowerOn m env = ⟨m, some ("could not power on: " ++ ("failed to start instance: " ++ e)),
        [.getMetadata, .resume]⟩) ∧
    (vm.status = "TERMINATED" → RemoteCall.start ∈ (PowerOn m env).calls) ∧
    (vm.status = "SUSPENDED" → RemoteCall.resume ∈ (PowerOn m env).calls) ∧
    (vm.status ≠ "RUNNING" → vm.status ≠ "TERMINATED" → vm.status ≠ "SUSPENDED" →
      PowerOn m env = ⟨m, none, [.getMetadata]⟩) := by
  refine ⟨fun hs => PowerOn_running m env vm hmd hs, ?_, ?_, ?_, ?_,
    fun h1 h2 h3 => PowerOn_not_actionable m env vm hmd h1 h2 h3⟩
  · intro hs e he
    refine PowerOn_transition_fail m env vm _ _ hmd (by rw [hs]; decide)
      (Or.inl hs) ?_
    rw [hs, powerOn_terminated, he]
  · intro hs e he
    refine PowerOn_transition_fail m env vm _ _ hmd (by rw [hs]; decide)
      (Or.inr hs) ?_
    rw [hs, powerOn_suspended, he]
  · intro hs
    rcases he : env.startResult with _ | e
    · rw [PowerOn_transition_ok m env vm [.start] hmd (by rw [hs]; decide) (Or.inl hs)
        (by rw [hs, powerOn_terminated, he])]
      simp
    · rw [PowerOn_transition_fail m env vm _ [.start] hmd (by rw [hs]; decide) (Or.inl hs)
        (by rw [hs, powerOn_terminated, he])]
      simp
  · intro hs
    rcases he : env.resumeResult with _ | e
    · rw [PowerOn_transition_ok m env vm [.resume] hmd (by rw [hs]; decide) (Or.inr hs)
        (by rw [hs, powerOn_suspended, he])]
      simp
    · rw [PowerOn_transition_fail m env vm _ [.resume] hmd (by rw [hs]; decide) (Or.inr hs)
        (by rw [hs, powerOn_suspended, he])]
      simp

/-- A RUNNING instance with a public NAT address, and an environment
observing it, used to instantiate the dispatch theorem. -/
def vmRunning : Instance := ⟨"RUNNING", [⟨"10.0.0.5", [⟨"203.0.113.1"⟩]⟩]⟩

/-- Environment whose metadata fetch observes `vmRunning`. -/
def envRunning : RemoteEnv := ⟨.ok vmRunning, none, none, fun _ => .fetchErr "unused"⟩

/-- C4 witness: on a RUNNING instance the call reduces to address
resolution, which publishes the NAT address. -/
theorem powerOn_status_dispatch_witness :
    PowerOn ⟨false, "", 0⟩ envRunning =
      ⟨(setIp ⟨false, "", 0⟩ vmRunning).1, (setIp ⟨false, "", 0⟩ vmRunning).2,
        [.getMetadata]⟩ ∧
    (setIp ⟨false, "", 0⟩ vmRunning).1.host = "203.0.113.1" := by
  refine ⟨(powerOn_status_dispatch ⟨false, "", 0⟩ envRunning vmRunning rfl).1 rfl, ?_⟩
  decide

/-- A list of interfaces none of which has an access config carries no NAT
address. -/
theorem firstNatIP_none_of_no_access (l : List NetworkInterface)
    (h : ∀ nic ∈ l, nic.accessConfigs = []) : firstNatIP l = none := by
  induction l with
  | nil => rfl
  | cons nic rest ih =>
    rw [firstNatIP, h nic (by simp)]
    exact ih (fun q hq => h q (by simp [hq]))

/-- C5: the address-resolution policy of `setIp`.  No interfaces fails under
either policy; with the private policy the first interface's private address
is required and chosen; with the public policy the first NAT address found is
chosen and its absence (in particular when no interface has any access
config, i.e. a private-only instance) fails; and every failure leaves the
machine, in particular its stored host, unchanged. -/
theorem setIp_address_policy (m : GoogleComputeEngine) (vm : Instance) :
    (vm.networkInterfaces = [] →
      setIp m vm = (m, some "no network interfaces found for instance")) ∧
    (∀ nic0 rest, vm.networkInterfaces = nic0 :: rest →
      (m.usePrivateIp = true →
        (nic0.networkIP = "" →
          setIp m vm = (m, some "no private IP found for instance")) ∧
        (nic0.networkIP ≠ "" →
          setIp m vm = ({ m with host := nic0.networkIP }, none))) ∧
      (m.usePrivateIp = false →
        (∀ ip, firstNatIP vm.networkInterfaces = some ip →
          setIp m vm = ({ m with host := ip }, none)) ∧
        (firstNatIP vm.networkInterfaces = none →
          setIp m vm = (m, some "no public IP found for instance")))) ∧
    ((∀ nic ∈ vm.networkInterfaces, nic.accessConfigs = []) →
      firstNatIP vm.networkInterfaces = none) ∧
    (∀ e, (setIp m vm).2 = some e → (setIp m vm).1 = m) := by
  refine ⟨?_, ?_, firstNatIP_none_of_no_access _,
    fun e he => setIp_some_unchanged m vm e he⟩
  · intro h
    rw [setIp, h]
  · intro nic0 rest hn
    constructor
    · intro hpriv
      constructor
      · intro hip
        rw [setIp, hn]
        dsimp only
        rw [if_pos (by simp [hpriv, hip])]
      · intro hip
        rw [setIp, hn]
        dsimp only
        rw [if_neg (by simp [hpriv, hip]), if_pos hpriv]
    · intro hpriv
      constructor
      · intro ip hf
        rw [hn] at hf
        rw [setIp, hn]
        dsimp only
        rw [if_neg (by simp [hpriv]), if_neg (by simp [hpriv]), hf]
      · intro hf
        rw [hn] at hf
        rw [setIp, hn]
        dsimp only
        rw [if_neg (by simp [hpriv]), if_neg (by simp [hpriv]), hf]

/-- C5 witness: on an instance with both a private and a NAT address the
private policy picks the private one, and on a private-only instance the
public policy fails leaving the host unchanged. -/
theorem setIp_address_policy_witness :
    setIp ⟨true, "", 0⟩ ⟨"RUNNING", [⟨"10.0.0.5", [⟨"203.0.113.1"⟩]⟩]⟩ =
      (⟨true, "10.0.0.5", 0⟩, none) ∧
    setIp ⟨false, "old", 7⟩ ⟨"RUNNING", [⟨"10.0.0.5", []⟩]⟩ =
      (⟨false, "old", 7⟩, some "no public IP found for instance") := by
  constructor
  · exact (((setIp_address_policy ⟨true, "", 0⟩
      ⟨"RUNNING", [⟨"10.0.0.5", [⟨"203.0.113.1"⟩]⟩]⟩).2.1
      ⟨"10.0.0.5", [⟨"203.0.113.1"⟩]⟩ [] rfl).1 rfl).2 (by decide)
  · exact (((setIp_address_policy ⟨false, "old", 7⟩
      ⟨"RUNNING", [⟨"10.0.0.5", []⟩]⟩).2.1
      ⟨"10.0.0.5", []⟩ [] rfl).2 rfl).2 (by decide)

/-- Poll stream that observes a RUNNING instance with no network interfaces
on every tick. -/
def pollRunNoNic : Nat → PollOutcome := fun _ => .ok ⟨"RUNNING", []⟩

/-- C6 counterexample: the poll loop has a fourth exit.  When a poll observes
RUNNING but the instance has no usable address, the loop returns the
address-resolution error — not success, not the timeout error, and no
cancellation was ever delivered (the stream `pollRunNoNic` contains none by
construction). -/
theorem waitForInstanceRunning_fourth_exit_cex :
    (waitForInstanceRunning ⟨false, "", 0⟩ pollRunNoNic).err =
      some "no network interfaces found for instance" ∧
    (waitForInstanceRunning ⟨false, "", 0⟩ pollRunNoNic).err ≠
      some "timeout waiting for instance to start" ∧
    Host (waitForInstanceRunning ⟨false, "", 0⟩ pollRunNoNic).machine = "" := by
  refine ⟨rfl, by decide, rfl⟩

/-- Poll stream that observes STAGING twice and then the RUNNING instance
`vmRunning`. -/
def pollEventually : Nat → PollOutcome :=
  fun i => if i < 2 then .ok ⟨"STAGING", []⟩ else .ok vmRunning

/-- C6 (amended): the poll loop terminates in exactly one of four ways — on
success a polled RUNNING instance's address was resolved and published
(non-empty host); on error the machine is unchanged (so the address stays
empty when it started empty) and the error is the 5-minute timeout, a
cancellation delivered by the poll stream, or the address-resolution failure
of a polled RUNNING instance.  Moreover at most
`pollTimeoutSeconds / tickIntervalSeconds = 150` status polls are made, one
per 2-second tick. -/
theorem waitForInstanceRunning_outcomes (m : GoogleComputeEngine)
    (poll : Nat → PollOutcome) :
    ((waitForInstanceRunning m poll).err = none →
      Host (waitForInstanceRunning m poll).machine ≠ "" ∧
      ∃ j vm, poll j = .ok vm ∧ vm.status = "RUNNING" ∧
        setIp m vm = ((waitForInstanceRunning m poll).machine, none)) ∧
    (∀ e, (waitForInstanceRunning m poll).err = some e →
      (waitForInstanceRunning m poll).machine = m ∧
      (e = "timeout waiting for instance to start" ∨
       (∃ j, poll j = .cancelled e) ∨
       (∃ j vm, poll j = .ok vm ∧ vm.status = "RUNNING" ∧ setIp m vm = (m, some e)))) ∧
    (waitForInstanceRunning m poll).calls.length ≤
      pollTimeoutSeconds / tickIntervalSeconds := by
  rw [waitForInstanceRunning]
  refine ⟨?_, ?_, waitAux_calls_le poll _ 0 m⟩
  · intro h
    rcases waitAux_classify poll (pollTimeoutSeconds / tickIntervalSeconds) 0 m
      with ⟨j, vm, hpj, hst, hw⟩ | ⟨hm, hrest⟩
    · have hw1 : (waitAux poll m 0 (pollTimeoutSeconds / tickIntervalSeconds)).machine
          = (setIp m vm).1 := congrArg Prod.fst hw
      have hw2 : (waitAux poll m 0 (pollTimeoutSeconds / tickIntervalSeconds)).err
          = (setIp m vm).2 := congrArg Prod.snd hw
      rw [hw2] at h
      refine ⟨?_, j, vm, hpj, hst, ?_⟩
      · rw [Host, hw1]
        exact setIp_none_host_ne m vm h
      · rw [hw1, ← h]
    · rcases hrest with ho | ⟨j, e, hpj, ho⟩ <;> rw [ho] at h <;> cases h
  · intro e h
    rcases waitAux_classify poll (pollTimeoutSeconds / tickIntervalSeconds) 0 m
      with ⟨j, vm, hpj, hst, hw⟩ | ⟨hm, hrest⟩
    · have hw1 : (waitAux poll m 0 (pollTimeoutSeconds / tickIntervalSeconds)).machine
          = (setIp m vm).1 := congrArg Prod.fst hw
      have hw2 : (waitAux poll m 0 (pollTimeoutSeconds / tickIntervalSeconds)).err
          = (setIp m vm).2 := congrArg Prod.snd hw
      rw [hw2] at h
      have hm : (setIp m vm).1 = m := setIp_some_unchanged m vm e h
      refine ⟨by rw [hw1, hm], Or.inr (Or.inr ⟨j, vm, hpj, hst, Prod.ext hm h⟩)⟩
    · refine ⟨hm, ?_⟩
      rcases hrest with ho | ⟨j, e2, hpj, ho⟩
      · rw [ho] at h
        exact Or.inl (Option.some_injective _ h).symm
      · rw [ho] at h
        exact Or.inr (Or.inl ⟨j, by rw [hpj, (Option.some_injective _ h)]⟩)

/-- C6 amended-claim witness: a poll stream that reaches RUNNING at the third
tick succeeds with the NAT address published. -/
theorem waitForInstanceRunning_outcomes_witness :
    Host (waitForInstanceRunning ⟨false, "", 0⟩ pollEventually).machine ≠ "" ∧
    ∃ j vm, pollEventually j = .ok vm ∧ vm.status = "RUNNING" ∧
      setIp ⟨false, "", 0⟩ vm =
        ((waitForInstanceRunning ⟨false, "", 0⟩ pollEventually).machine, none) :=
  (waitForInstanceRunning_outcomes ⟨false, "", 0⟩ pollEventually).1 (by decide)

/-- A `PowerOn` call either leaves the stored host exactly as it was or
stores a non-empty one. -/
theorem PowerOn_host_cases (m : GoogleComputeEngine) (env : RemoteEnv) :
    (PowerOn m env).machine.host = m.host ∨ (PowerOn m env).machine.host ≠ "" := by
  rcases hmd : env.metadata with e | vm
  · rw [PowerOn, hmd]
    exact Or.inl rfl
  · by_cases hrun : vm.status = "RUNNING"
    · rw [PowerOn_running m env vm hmd hrun]
      rcases setIp_cases m vm with ⟨e, he⟩ | ⟨hh, hne, he⟩ <;> rw [he]
      · exact Or.inl rfl
      · exact Or.inr hne
    · by_cases hterm : vm.status = "TERMINATED" ∨ vm.status = "SUSPENDED"
      · rcases hpo : powerOn env vm.status with ⟨oe, cs⟩
        rcases oe with _ | e
        · rw [PowerOn_transition_ok m env vm cs hmd hrun hterm hpo]
          rw [waitForInstanceRunning]
          dsimp only
          rcases waitAux_classify env.poll (pollTimeoutSeconds / tickIntervalSeconds) 0 m
            with ⟨j, vm2, hpj, hst, hw⟩ | ⟨hm, hrest⟩
          · have hw1 : (waitAux env.poll m 0 (pollTimeoutSeconds / tickIntervalSeconds)).machine
                = (setIp m vm2).1 := congrArg Prod.fst hw
            rw [hw1]
            rcases setIp_cases m vm2 with ⟨e2, he⟩ | ⟨hh, hne, he⟩ <;> rw [he]
            · exact Or.inl rfl
            · exact Or.inr hne
          · rw [hm]
            exact Or.inl rfl
        · rw [PowerOn_transition_fail m env vm e cs hmd hrun hterm hpo]
          exact Or.inl rfl
      · push_neg at hterm
        rw [PowerOn_not_actionable m env vm hmd hrun hterm.1 hterm.2]
        exact Or.inl rfl

/-- A `PowerOnWithCooldown` call either leaves the stored host exactly as it
was or stores a non-empty one. -/
theorem powerOnWithCooldown_host_cases (m : GoogleComputeEngine) (env : RemoteEnv)
    (now cd : Nat) :
    (PowerOnWithCooldown m env now cd).machine.host = m.host ∨
    (PowerOnWithCooldown m env now cd).machine.host ≠ "" := by
  by_cases hcool : now - m.lastPowerOnAttempt < cd
  · rw [powerOnWithCooldown_of_lt m env now cd hcool]
    exact Or.inl rfl
  · rw [powerOnWithCooldown_of_ge m env now cd (Nat.le_of_not_lt hcool)]
    exact PowerOn_host_cases { m with lastPowerOnAttempt := now } env

/-- Once the stored host is non-empty, a serialised batch of calls keeps it
non-empty. -/
theorem runSerial_host_ne (cd : Nat) :
    ∀ (calls : List (Nat × RemoteEnv)) (m : GoogleComputeEngine),
      m.host ≠ "" → (runSerial cd m calls).1.host ≠ "" := by
  intro calls
  induction calls with
  | nil => intro m hm; exact hm
  | cons p rest ih =>
    intro m hm
    obtain ⟨t, env⟩ := p
    rw [runSerial]
    refine ih _ ?_
    rcases powerOnWithCooldown_host_cases m env t cd with h | h
    · rw [h]; exact hm
    · exact h

/-- C10: the stored runtime host is never reset to empty once set.  Address
resolution either errors without mutating or writes a non-empty host; a
single `PowerOnWithCooldown` call therefore leaves the host unchanged or
non-empty, and across any serialised sequence of calls a non-empty `Host()`
stays non-empty forever. -/
theorem host_never_cleared (cd now : Nat) (m : GoogleComputeEngine)
    (env : RemoteEnv) (calls : List (Nat × RemoteEnv)) :
    (∀ vm, (setIp m vm).2 = none → (setIp m vm).1.host ≠ "") ∧
    (∀ vm e, (setIp m vm).2 = some e → (setIp m vm).1 = m) ∧
    ((PowerOnWithCooldown m env now cd).machine.host = m.host ∨
      (PowerOnWithCooldown m env now cd).machine.host ≠ "") ∧
    (Host m ≠ "" → Host (runSerial cd m calls).1 ≠ "") :=
  ⟨fun vm h => setIp_none_host_ne m vm h,
   fun vm e h => setIp_some_unchanged m vm e h,
   powerOnWithCooldown_host_cases m env now cd,
   fun hm => runSerial_host_ne cd calls m hm⟩

/-- C10 witness: with the host already published, a batch of further calls
(one of which re-runs the remote sequence against an unreachable control
plane) never clears it. -/
theorem host_never_cleared_witness :
    Host (runSerial 30 ⟨false, "10.0.0.1", 5⟩
      [(10, envUnavailable), (40, envUnavailable)]).1 ≠ "" :=
  (host_never_cleared 30 10 ⟨false, "10.0.0.1", 5⟩ envUnavailable
    [(10, envUnavailable), (40, envUnavailable)]).2.2.2 (by decide)

/-! ## Helper lemmas about the access filter -/

instance : DecidablePred wfIPNet := fun n => by
  unfold wfIPNet
  infer_instance

theorem networkNumberAndMask_isSome (n : IPNet) (h : wfIPNet n) :
    (networkNumberAndMask n).isSome = true := by
  rcases h with ⟨hi, hm⟩ | ⟨hi, hm⟩
  · have ht : to4 n.ip = some n.ip := by rw [to4, if_pos hi]
    rw [networkNumberAndMask, ht]
    dsimp only
    rw [if_pos hm, if_neg (by simp [hi])]
    rfl
  · have ht : (match to4 n.ip with
        | some ip4 => some ip4
        | none => if n.ip.length = 16 then some n.ip else none) =
        some ((to4 n.ip).getD n.ip) := by
      rcases h4 : to4 n.ip with _ | q
      · dsimp only
        rw [if_pos hi]
        rfl
      · rfl
    rw [networkNumberAndMask, ht]
    dsimp only
    rw [if_neg (by simp [hm]), if_pos hm]
    rfl

/-- A nil (unparsable) client IP is contained in no well-formed block. -/
theorem contains_none_of_wf (n : IPNet) (h : wfIPNet n) :
    IPNet.contains n none = false := by
  obtain ⟨p, hp⟩ := Option.isSome_iff_exists.mp (networkNumberAndMask_isSome n h)
  rw [IPNet.contains, hp]

theorem pickFromRight_of_lt (l : List (List Char)) (d : Nat) (h : d < l.length) :
    pickFromRight l d = trimChars (l.getD d []) := by
  induction l generalizing d with
  | nil => simp at h
  | cons x rest ih =>
    cases d with
    | zero => rfl
    | succ k =>
      rw [List.getD_cons_succ]
      exact ih k (Nat.lt_of_succ_lt_succ h)

theorem pickFromRight_of_ge (l : List (List Char)) (d : Nat) (h : l.length ≤ d) :
    pickFromRight l d = [] := by
  induction l generalizing d with
  | nil => rfl
  | cons x rest ih =>
    cases d with
    | zero => simp at h
    | succ k => exact ih k (Nat.le_of_succ_le_succ h)

/-- C7: the filter admits a request exactly when the resolved client IP lies
in at least one configured CIDR block; with a well-formed allow-list (as
`ParseCIDR` guarantees) an unparsable resolved address is admitted by no
block, and an empty allow-list denies every request. -/
theorem ipIsAllowed_iff (c : Config) (r : Request)
    (hwf : ∀ n ∈ c.allowedIps, wfIPNet n) :
    (IpIsAllowed c r = true ↔
      ∃ n ∈ c.allowedIps, IPNet.contains n (getClientIP c r) = true) ∧
    (getClientIP c r = none → IpIsAllowed c r = false) ∧
    (c.allowedIps = [] → IpIsAllowed c r = false) := by
  refine ⟨?_, ?_, ?_⟩
  · rw [IpIsAllowed]
    exact List.any_eq_true
  · intro h
    rw [IpIsAllowed, h]
    rw [List.any_eq_false]
    intro n hn
    simp [contains_none_of_wf n (hwf n hn)]
  · intro h
    rw [IpIsAllowed, h]
    rfl

/-- Allow-list with the single block 192.168.1.0/24. -/
def cAllow : Config := ⟨[⟨[192, 168, 1, 0], [255, 255, 255, 0]⟩], "X-Forwarded-For", 0⟩

/-- C7 witness: a peer inside 192.168.1.0/24 is admitted — through the
if-and-only-if characterisation — and with this (well-formed) allow-list an
unparsable address would be denied. -/
theorem ipIsAllowed_iff_witness :
    (IpIsAllowed cAllow ⟨"192.168.1.50:1234", []⟩ = true ↔
      ∃ n ∈ cAllow.allowedIps,
        IPNet.contains n (getClientIP cAllow ⟨"192.168.1.50:1234", []⟩) = true) ∧
    IpIsAllowed cAllow ⟨"192.168.1.50:1234", []⟩ = true :=
  ⟨(ipIsAllowed_iff cAllow ⟨"192.168.1.50:1234", []⟩ (by decide)).1, by decide⟩

/-- C8: depth selection in `getClientIP`.  With the forwarded header
configured, the candidate address is the whitespace-trimmed component at the
trust depth counted from the rightmost entry of the comma-split header value
(whenever that depth is in range and the selected component is non-blank);
a depth at least the component count, and an absent or empty header value,
fall back to the request's direct peer address. -/
theorem getClientIP_depth_selection (c : Config) (r : Request) :
    (c.ipForwardedHeader ≠ "" →
      (c.ipDepth < (splitOnChar ',' (headerGet r c.ipForwardedHeader).data).length →
        trimChars ((splitOnChar ',' (headerGet r c.ipForwardedHeader).data).reverse.getD
          c.ipDepth []) ≠ [] →
        candidateClientIP c r =
          trimChars ((splitOnChar ',' (headerGet r c.ipForwardedHeader).data).reverse.getD
            c.ipDepth [])) ∧
      ((splitOnChar ',' (headerGet r c.ipForwardedHeader).data).length ≤ c.ipDepth →
        candidateClientIP c r = r.remoteAddr.data)) ∧
    (headerGet r c.ipForwardedHeader = "" → candidateClientIP c r = r.remoteAddr.data) := by
  constructor
  · intro hcfg
    constructor
    · intro hd hne
      rw [candidateClientIP]
      simp only [if_pos hcfg, hcfg, if_true, ne_eq, ite_not]
      rw [pickFromRight_of_lt _ c.ipDepth (by simpa using hd)]
      rw [if_neg (by simpa [List.isEmpty_iff] using hne)]
      simp
    · intro hd
      rw [candidateClientIP]
      simp only [if_pos hcfg, hcfg, if_true, ne_eq, ite_not]
      rw [pickFromRight_of_ge _ c.ipDepth (by simpa using hd)]
      rfl
  · intro h
    rw [candidateClientIP, h]
    by_cases hcfg : c.ipForwardedHeader = ""
    · simp [hcfg]
    · simp only [hcfg, ite_false, if_neg, ne_eq, not_false_iff, if_true]
      cases hdep : c.ipDepth with
      | zero => simp [splitOnChar, pickFromRight, trimChars]
      | succ k => simp [splitOnChar, pickFromRight]

/-- Configuration and request for the depth-selection witness: header value
"a, b, c" at depth 1. -/
def rDepth : Request := ⟨"9.9.9.9:80", [("X-Forwarded-For", "a, b, c")]⟩

/-- C8 witness: for header value "a, b, c" and depth 1 the candidate is "b";
for depth 3 (at least the component count) the direct peer address is used. -/
theorem getClientIP_depth_selection_witness :
    candidateClientIP ⟨[], "X-Forwarded-For", 1⟩ rDepth = "b".data ∧
    candidateClientIP ⟨[], "X-Forwarded-For", 3⟩ rDepth = "9.9.9.9:80".data := by
  constructor
  · have h := ((getClientIP_depth_selection ⟨[], "X-Forwarded-For", 1⟩ rDepth).1
      (by decide)).1 (by decide) (by decide)
    rw [h]
    decide
  · have h := ((getClientIP_depth_selection ⟨[], "X-Forwarded-For", 3⟩ rDepth).1
      (by decide)).2 (by decide)
    rw [h]
    rfl

/-- Configuration and request exhibiting the bare-IPv6 port-stripping bug:
the forwarded header carries "2001:db8::1", a valid IPv6 address with no
port. -/
def rBareV6 : Request := ⟨"203.0.113.9:443", [("X-Forwarded-For", "2001:db8::1")]⟩

/-- C9: the port stripping handles the IPv4 host:port and IPv6 [host]:port
forms and leaves a portless IPv4 address intact, but a bare IPv6 address
taken from the forwarded header — a valid IP — contains colons, so
`net.SplitHostPort` fails and the code replaces it with the empty string,
which no longer parses: the selected candidate "2001:db8::1" becomes "" and
the resolved IP is nil. -/
theorem getClientIP_bare_ipv6_destroyed :
    parseIP "2001:db8::1" =
      some [0x20, 0x01, 0x0d, 0xb8, 0, 0, 0, 0, 0, 0, 0, 0, 0, 0, 0, 1] ∧
    candidateClientIP ⟨[], "X-Forwarded-For", 0⟩ rBareV6 = "2001:db8::1".data ∧
    getClientIPString ⟨[], "X-Forwarded-For", 0⟩ rBareV6 = "" ∧
    getClientIP ⟨[], "X-Forwarded-For", 0⟩ rBareV6 = none ∧
    stripPort "192.168.1.1:8080".data = "192.168.1.1".data ∧
    stripPort "[2001:db8::1]:8080".data = "2001:db8::1".data ∧
    stripPort "203.0.113.9".data = "203.0.113.9".data := by
  decide

end PPB
